import Mathlib

/-!
# lido-cli: deploy sequencer and IPFS daemon launcher

A shallow embedding of `cli/pkg/deploy/deploy.go` and `cli/pkg/ipfs/ipfs.go`.

The Go methods mutate their receiver, talk to a terminal spinner, print, spawn
external commands, sleep and may panic.  Each method is embedded as a pure
function from the receiver (and the answers of the environment) to a `Run`:
the receiver afterwards, the ordered list of effects it performed, and whether
it returned or panicked.

The environment is explicit:
* `logs.Verbose` is the parameter `verbose`;
* the result of an external command run to completion is a `RunResult`;
* the text the daemon appends to the capture buffers between two polls is the
  function `daemon`.
-/

namespace LidoCli

/-! ## Text -/

/-- Go `strings.HasPrefix` on character lists. -/
def startsWith : List Char → List Char → Bool
  | _, [] => true
  | [], _ :: _ => false
  | c :: s, p :: ps => c == p && startsWith s ps

/-- Some tail of the first list starts with the second list. -/
def containsAt : List Char → List Char → Bool
  | [], sub => startsWith [] sub
  | c :: s, sub => startsWith (c :: s) sub || containsAt s sub

/-- Go `strings.Contains s substr`: `substr` occurs within `s`. -/
def Contains (s substr : String) : Bool :=
  containsAt s.data substr.data

/-! ## Effects -/

/-- One observable step of a method, in program order. -/
inductive Event where
  /-- Call `pterm.DefaultSpinner.Start(text)`. -/
  | spinnerStart (text : String)
  /-- Call `s.UpdateText(text)`. -/
  | spinnerUpdateText (text : String)
  /-- Call `s.Success(text)`. -/
  | spinnerSuccess (text : String)
  /-- Call `s.Fail()`. -/
  | spinnerFail
  /-- Call `fmt.Print(text)`; `fmt.Println` prints its argument and a newline. -/
  | print (text : String)
  /-- Launch of `exec.Command(name, args...)` by `Run` or `Start`. -/
  | exec (name : String) (args : List String)
  /-- The message `log.Panic` writes before it panics. -/
  | log (text : String)
  /-- Call `time.Sleep(seconds * time.Second)`. -/
  | sleep (seconds : Nat)
  /-- The polling loop reads the capture buffers for the `i`-th time. -/
  | sample (i : Nat)
  /-- Call `Process.Kill()` on the process with this pid. -/
  | kill (pid : Int)
  deriving DecidableEq, Repr

/-- How a call ended: it returned a value, or it panicked. -/
inductive Outcome (α : Type) where
  | returned (value : α)
  | panicked (msg : String)
  deriving DecidableEq, Repr

/-- The result of running a method on a receiver of type `σ`. -/
structure Run (σ α : Type) where
  node : σ
  trace : List Event
  outcome : Outcome α
  deriving DecidableEq, Repr

/-- Sequencing of two calls on the same receiver: a panic of the first call
unwinds past the second. -/
def Run.andThen {σ α β : Type} (r : Run σ α) (k : σ → α → Run σ β) : Run σ β :=
  match r.outcome with
  | .panicked msg => ⟨r.node, r.trace, .panicked msg⟩
  | .returned v =>
    let r2 := k r.node v
    ⟨r2.node, r.trace ++ r2.trace, r2.outcome⟩

/-- The commands launched during a run, in launch order. -/
def launched : List Event → List (String × List String)
  | [] => []
  | .exec name args :: t => (name, args) :: launched t
  | _ :: t => launched t

/-- Everything written with `fmt.Print` / `fmt.Println` during a run. -/
def printed : List Event → String
  | [] => ""
  | .print text :: t => text ++ printed t
  | _ :: t => printed t

/-! ## `os/exec` -/

/-- Go `os.Process`, reduced to its pid. -/
structure Process where
  Pid : Int
  deriving DecidableEq, Repr

/-- Go `exec.Cmd`: the command line and, once started, the process. -/
structure Cmd where
  Name : String
  Args : List String
  Process : Option Process
  deriving DecidableEq, Repr

/-- What the environment answers to `Cmd.Run()`: the process it spawned (none
when the launch itself failed), the bytes the command wrote to its standard
output and standard error, and the error `Run` returns (`none` is Go `nil`,
that is exit status zero). -/
structure RunResult where
  process : Option Process
  stdout : String
  stderr : String
  err : Option String
  deriving DecidableEq, Repr

/-! ## `deploy.go` -/

structure AppInfo where
  BaseAddress : String
  FullName : String
  Name : String
  ID : String
  IpfsCid : String
  ContentURI : String
  ProxyAddress : String
  deriving DecidableEq, Repr

structure DeployedFile where
  DaoAddress : String
  AppLido : AppInfo
  AppOracle : AppInfo
  AppNodeOperatorsRegistry : AppInfo
  deriving DecidableEq, Repr

structure Deploy where
  Cmd : Option Cmd
  Outb : String
  Errb : String
  DeployedFile : Option DeployedFile
  deriving DecidableEq, Repr

namespace Deploy

/-- The three statements `node.Cmd = exec.Command("yarn", script)`,
`node.Cmd.Stdout = &node.Outb`, `node.Cmd.Stderr = &node.Errb` followed by
`node.Cmd.Run()`: the handle records the command, and what the command writes
is appended to the two buffers of the handle. -/
def runYarn (script : String) (r : RunResult) (node : Deploy) : Deploy :=
  { node with
    Cmd := some ⟨"yarn", [script], r.process⟩
    Outb := node.Outb ++ r.stdout
    Errb := node.Errb ++ r.stderr }

/-- The block `if logs.Verbose { fmt.Print(node.Outb.String()); node.Outb.Reset() }`
followed by `s.Success(text)`. -/
def echoAndSucceed (verbose : Bool) (text : String) (node : Deploy) : Deploy × List Event :=
  if verbose then
    ({ node with Outb := "" }, [.print node.Outb, .spinnerSuccess text])
  else
    (node, [.spinnerSuccess text])

def AragonEnv (verbose : Bool) (r : RunResult) (node : Deploy) : Run Deploy (Option String) :=
  let node := runYarn "deploy:aragon-env" r node
  let t := [Event.spinnerStart "Deploy: Aragon env...", .exec "yarn" ["deploy:aragon-env"]]
  match r.err with
  | some err =>
    let upd :=
      if Contains node.Errb "Error: Cannot create instance of ENS" then
        [Event.spinnerUpdateText
          "Error: Cannot create instance of ENS, remove deployed-localhost.json file and try again"]
      else []
    ⟨node, t ++ upd ++ [.print node.Errb, .spinnerFail], .returned (some err)⟩
  | none =>
    let fin := echoAndSucceed verbose "Deploy: Aragon env... done" node
    ⟨fin.1, t ++ fin.2, .returned none⟩

def AragonStdApps (verbose : Bool) (r : RunResult) (node : Deploy) : Run Deploy (Option String) :=
  let node := runYarn "deploy:aragon-std-apps" r node
  let t := [Event.spinnerStart "Deploy: Aragon standart apps...", .exec "yarn" ["deploy:aragon-std-apps"]]
  match r.err with
  | some err => ⟨node, t, .returned (some err)⟩
  | none =>
    let fin := echoAndSucceed verbose "Deploy: Aragon standart apps... done" node
    ⟨fin.1, t ++ fin.2, .returned none⟩

def ApmAndTemplates (verbose : Bool) (r : RunResult) (node : Deploy) : Run Deploy Unit :=
  let node := runYarn "deploy:apm-and-template" r node
  let t := [Event.spinnerStart "Deploy: apm and template...", .exec "yarn" ["deploy:apm-and-template"]]
  match r.err with
  | some err => ⟨node, t ++ [.log err], .panicked err⟩
  | none =>
    let fin := echoAndSucceed verbose "Deploy: apm and template... done" node
    ⟨fin.1, t ++ fin.2, .returned ()⟩

def DeployApps (verbose : Bool) (r : RunResult) (node : Deploy) : Run Deploy Unit :=
  let node := runYarn "deploy:apps" r node
  let t := [Event.spinnerStart "Deploy: lido apps...", .exec "yarn" ["deploy:apps"]]
  match r.err with
  | some err => ⟨node, t ++ [.log err], .panicked err⟩
  | none =>
    let fin := echoAndSucceed verbose "Deploy: lido apps... done" node
    ⟨fin.1, t ++ fin.2, .returned ()⟩

def DeployDAO (verbose : Bool) (r : RunResult) (node : Deploy) : Run Deploy Unit :=
  let node := runYarn "deploy:dao" r node
  let t := [Event.spinnerStart "Deploy: DAO...", .exec "yarn" ["deploy:dao"]]
  match r.err with
  | some err => ⟨node, t ++ [.log err], .panicked err⟩
  | none =>
    let fin := echoAndSucceed verbose "Deploy: DAO... done" node
    ⟨fin.1, t ++ fin.2, .returned ()⟩

/-- Method `Deploy.Start`.  The argument `sys` answers each `yarn <script>` the
sequence runs.  Only the error of `AragonEnv` is inspected; the value returned
by `AragonStdApps` is dropped. -/
def Start (verbose : Bool) (sys : String → RunResult) (node : Deploy) : Run Deploy (Option String) :=
  (AragonEnv verbose (sys "deploy:aragon-env") node).andThen fun node err =>
    match err with
    | some e => ⟨node, [], .returned (some e)⟩
    | none =>
      (AragonStdApps verbose (sys "deploy:aragon-std-apps") node).andThen fun node _ =>
      (ApmAndTemplates verbose (sys "deploy:apm-and-template") node).andThen fun node _ =>
      (DeployApps verbose (sys "deploy:apps") node).andThen fun node _ =>
      (DeployDAO verbose (sys "deploy:dao") node).andThen fun node _ =>
      ⟨node, [], .returned none⟩

/-- The five stage commands in pipeline order. -/
def stageCommands : List (String × List String) :=
  [("yarn", ["deploy:aragon-env"]), ("yarn", ["deploy:aragon-std-apps"]),
   ("yarn", ["deploy:apm-and-template"]), ("yarn", ["deploy:apps"]), ("yarn", ["deploy:dao"])]

end Deploy

/-! ## `ipfs.go` -/

structure IPFS where
  Cmd : Option Cmd
  Outb : String
  Errb : String
  deriving DecidableEq, Repr

namespace IPFS

/-- The statement `if logs.Verbose && node.Outb.String() != "" { fmt.Print(...) }`
that opens the loop body, on the output buffer `out`. -/
def echo (verbose : Bool) (out : String) : List Event :=
  if verbose && out != "" then [.print out] else []

/-- The `for` loop of `IPFS.Start`, entered with the local counter `timeout`
and about to take sample number `i`.

Between two samples the daemon appends `daemon i` (standard output, standard
error) to the capture buffers; the body then works on that snapshot.  The loop
ends at a sample showing a marker, or by the panic once the counter is
negative, so the recursion is on the counter. -/
def loop (verbose : Bool) (daemon : Nat → String × String) (timeout : Int) (i : Nat)
    (node : IPFS) : Run IPFS Unit :=
  let node := { node with Outb := node.Outb ++ (daemon i).1, Errb := node.Errb ++ (daemon i).2 }
  let echo := echo verbose node.Outb
  if Contains node.Outb "Daemon is ready" then
    ⟨node, .sample i :: echo ++ [.spinnerSuccess "IPFS: Started", .print "\n"], .returned ()⟩
  else if Contains node.Errb "Error:" then
    ⟨node, .sample i :: echo ++ [.spinnerFail, .print (node.Errb ++ "\n"), .print "\n"],
      .returned ()⟩
  else
    let node := { node with Outb := "", Errb := "" }
    if timeout - 1 < 0 then
      ⟨node, .sample i :: echo ++ [.sleep 1, .spinnerUpdateText "Timeout error", .spinnerFail],
        .panicked "Timeout error"⟩
    else
      let r := loop verbose daemon (timeout - 1) (i + 1) node
      ⟨r.node, .sample i :: echo ++ [.sleep 1] ++ r.trace, r.outcome⟩
termination_by timeout.toNat
decreasing_by omega

/-- Method `IPFS.Start`.  The argument `launch` is the answer of `node.Cmd.Start()`:
an error, or the process that was spawned.  Samples are numbered from 1 and the
counter starts at 10. -/
def Start (verbose : Bool) (launch : Except String Process) (daemon : Nat → String × String)
    (node : IPFS) : Run IPFS Unit :=
  let t := [Event.spinnerStart "IPFS: Starting...", .exec "ipfs" ["daemon"]]
  match launch with
  | .error err =>
    ⟨{ node with Cmd := some ⟨"ipfs", ["daemon"], none⟩ }, t ++ [.log err], .panicked err⟩
  | .ok p =>
    let r := loop verbose daemon 10 1 { node with Cmd := some ⟨"ipfs", ["daemon"], some p⟩ }
    ⟨r.node, t ++ r.trace, r.outcome⟩

def Stop (node : IPFS) : Run IPFS Unit :=
  match node.Cmd with
  | none => ⟨node, [], .returned ()⟩
  | some cmd =>
    match cmd.Process with
    | none => ⟨node, [], .returned ()⟩
    | some p =>
      if p.Pid = 0 then ⟨node, [], .returned ()⟩
      else
        ⟨{ node with Cmd := none },
          [.spinnerStart "IPFS: Stopping...", .kill p.Pid, .spinnerSuccess "IPFS: Stopped"],
          .returned ()⟩

/-- The capture buffers (output, error) as a loop entered at sample `i` reads
them at sample `j`: at its first sample whatever the handle already held
followed by the daemon's writes, afterwards only what arrived since the reset
that closed the previous iteration. -/
def seenFrom (node : IPFS) (daemon : Nat → String × String) (i j : Nat) : String × String :=
  if j ≤ i then (node.Outb ++ (daemon i).1, node.Errb ++ (daemon i).2) else daemon j

/-- The capture buffers (output, error) as the loop of `Start` reads them at
sample `k`, samples being numbered from 1. -/
def seen (node : IPFS) (daemon : Nat → String × String) (k : Nat) : String × String :=
  seenFrom node daemon 1 k

/-- A process is recorded as running: the three tests of `Stop` all pass. -/
def running (node : IPFS) : Prop :=
  ∃ cmd p, node.Cmd = some cmd ∧ cmd.Process = some p ∧ p.Pid ≠ 0

end IPFS

/-- Number of samples taken during a run. -/
def samples : List Event → Nat
  | [] => 0
  | .sample _ :: t => samples t + 1
  | _ :: t => samples t

/-- Number of one-second sleeps during a run. -/
def sleeps : List Event → Nat
  | [] => 0
  | .sleep _ :: t => sleeps t + 1
  | _ :: t => sleeps t

/-- Events of an iteration that goes on polling: the sample, the verbose echo
and the sleep. -/
def Event.isPolling : Event → Bool
  | .sample _ => true
  | .print _ => true
  | .sleep _ => true
  | _ => false

/-- A run with the `fmt.Print` events left out: spinner, launch and the other
calls in program order. -/
def withoutPrints : List Event → List Event
  | [] => []
  | .print _ :: t => withoutPrints t
  | e :: t => e :: withoutPrints t

/-! ## Concrete handles and worlds -/

namespace Deploy

/-- A world in which every stage command exits zero and writes its own name. -/
def sysAllOk : String → RunResult :=
  fun script => ⟨some ⟨100⟩, script, "", none⟩

/-- A world in which the first stage command exits with status 1 and every
other command would exit zero. -/
def sysEnvFails : String → RunResult :=
  fun script =>
    if script = "deploy:aragon-env" then ⟨some ⟨100⟩, "", "Error: no network", some "exit status 1"⟩
    else ⟨some ⟨100⟩, script, "", none⟩

/-- A world in which the second stage command writes to both streams and exits
with status 1, and every other command exits zero. -/
def sysStdAppsFails : String → RunResult :=
  fun script =>
    if script = "deploy:aragon-std-apps" then
      ⟨some ⟨100⟩, "compiling", "Error: out of gas", some "exit status 1"⟩
    else ⟨some ⟨100⟩, script, "", none⟩

/-- A stage command that exits with status 1 after writing to standard error. -/
def failedRun : RunResult := ⟨some ⟨100⟩, "", "Error: out of gas", some "exit status 1"⟩

/-- A stage command that exits zero after writing `new` to standard output. -/
def okRun : RunResult := ⟨some ⟨100⟩, "new", "", none⟩

/-- A first-stage command that fails on a stale ENS record. -/
def ensRun : RunResult :=
  ⟨some ⟨100⟩, "", "Error: Cannot create instance of ENS; no code at address", some "exit status 1"⟩

/-- A freshly declared handle, Go `Deploy{}`. -/
def fresh : Deploy := ⟨none, "", "", none⟩

/-- A handle whose output buffer still holds `old`, as left behind by a stage
that ran while verbose mode was off or that failed. -/
def stale : Deploy := ⟨none, "old", "", none⟩

end Deploy

namespace IPFS

/-- A launcher on which `Start` was never called, Go `IPFS{}`. -/
def idle : IPFS := ⟨none, "", ""⟩

/-- A launcher holding a started daemon with pid 4242. -/
def started : IPFS := ⟨some ⟨"ipfs", ["daemon"], some ⟨4242⟩⟩, "Daemon is ready", ""⟩

/-- A daemon that never writes anything. -/
def silent : Nat → String × String := fun _ => ("", "")

/-- A daemon that announces readiness just before the third sample. -/
def readyAtThree : Nat → String × String :=
  fun i => if i = 3 then ("Daemon is ready", "") else ("Initializing daemon...", "")

/-- A daemon that reports a lock error just before the second sample. -/
def errorAtTwo : Nat → String × String :=
  fun i => if i = 2 then ("", "Error: lock already held") else ("", "")

end IPFS

/-! ## Deploy sequencer -/

/-- C1: `Deploy.Start` launches the stages in the fixed order AragonEnv,
AragonStdApps, ApmAndTemplates, DeployApps, DeployDAO, each one after the
previous one has finished.  For every assignment of outcomes to the five
commands: the launched commands are an initial segment of the five stage
commands; if the first command fails, nothing else is launched and `Start`
returns that error; if all five exit zero, the launched commands are exactly
the five, each launch is preceded by the previous stage's success report, and
`Start` returns nil. -/
theorem Deploy.start_runs_stages_in_order (verbose : Bool) (sys : String → RunResult)
    (node : Deploy) :
    (∃ n, launched (Deploy.Start verbose sys node).trace = Deploy.stageCommands.take n) ∧
    (∀ e, (sys "deploy:aragon-env").err = some e →
      launched (Deploy.Start verbose sys node).trace = [("yarn", ["deploy:aragon-env"])] ∧
      (Deploy.Start verbose sys node).outcome = .returned (some e)) ∧
    ((sys "deploy:aragon-env").err = none → (sys "deploy:aragon-std-apps").err = none →
      (sys "deploy:apm-and-template").err = none → (sys "deploy:apps").err = none →
      (sys "deploy:dao").err = none →
      launched (Deploy.Start verbose sys node).trace = Deploy.stageCommands ∧
      withoutPrints (Deploy.Start verbose sys node).trace =
        [.spinnerStart "Deploy: Aragon env...", .exec "yarn" ["deploy:aragon-env"],
         .spinnerSuccess "Deploy: Aragon env... done",
         .spinnerStart "Deploy: Aragon standart apps...", .exec "yarn" ["deploy:aragon-std-apps"],
         .spinnerSuccess "Deploy: Aragon standart apps... done",
         .spinnerStart "Deploy: apm and template...", .exec "yarn" ["deploy:apm-and-template"],
         .spinnerSuccess "Deploy: apm and template... done",
         .spinnerStart "Deploy: lido apps...", .exec "yarn" ["deploy:apps"],
         .spinnerSuccess "Deploy: lido apps... done",
         .spinnerStart "Deploy: DAO...", .exec "yarn" ["deploy:dao"],
         .spinnerSuccess "Deploy: DAO... done"] ∧
      (Deploy.Start verbose sys node).outcome = .returned none) := by
  refine ⟨?_, ?_, ?_⟩
  · cases h1 : (sys "deploy:aragon-env").err with
    | some e =>
      refine ⟨1, ?_⟩
      cases hu : Contains (node.Errb ++ (sys "deploy:aragon-env").stderr)
          "Error: Cannot create instance of ENS" <;>
        simp [Deploy.Start, Run.andThen, Deploy.AragonEnv, Deploy.runYarn, h1, hu, launched,
          Deploy.stageCommands]
    | none =>
      cases h2 : (sys "deploy:aragon-std-apps").err <;>
      cases h3 : (sys "deploy:apm-and-template").err <;>
      cases h4 : (sys "deploy:apps").err <;>
      cases h5 : (sys "deploy:dao").err <;>
      cases verbose <;>
      first
        | (refine ⟨5, ?_⟩
           simp [Deploy.Start, Run.andThen, Deploy.AragonEnv, Deploy.AragonStdApps,
            Deploy.ApmAndTemplates, Deploy.DeployApps, Deploy.DeployDAO, Deploy.runYarn,
            Deploy.echoAndSucceed, h1, h2, h3, h4, h5, launched, Deploy.stageCommands]
           done)
        | (refine ⟨4, ?_⟩
           simp [Deploy.Start, Run.andThen, Deploy.AragonEnv, Deploy.AragonStdApps,
            Deploy.ApmAndTemplates, Deploy.DeployApps, Deploy.DeployDAO, Deploy.runYarn,
            Deploy.echoAndSucceed, h1, h2, h3, h4, h5, launched, Deploy.stageCommands]
           done)
        | (refine ⟨3, ?_⟩
           simp [Deploy.Start, Run.andThen, Deploy.AragonEnv, Deploy.AragonStdApps,
            Deploy.ApmAndTemplates, Deploy.DeployApps, Deploy.DeployDAO, Deploy.runYarn,
            Deploy.echoAndSucceed, h1, h2, h3, h4, h5, launched, Deploy.stageCommands])
  · intro e h1
    cases hu : Contains (node.Errb ++ (sys "deploy:aragon-env").stderr)
        "Error: Cannot create instance of ENS" <;>
      simp [Deploy.Start, Run.andThen, Deploy.AragonEnv, Deploy.runYarn, h1, hu, launched]
  · intro h1 h2 h3 h4 h5
    cases verbose <;>
      simp [Deploy.Start, Run.andThen, Deploy.AragonEnv, Deploy.AragonStdApps,
        Deploy.ApmAndTemplates, Deploy.DeployApps, Deploy.DeployDAO, Deploy.runYarn,
        Deploy.echoAndSucceed, h1, h2, h3, h4, h5, launched, withoutPrints, Deploy.stageCommands]

/-- Witness for C1 on a world where the first stage fails and on a world where
all five stages succeed. -/
theorem Deploy.start_runs_stages_in_order_witness :
    (launched (Deploy.Start false Deploy.sysEnvFails Deploy.fresh).trace
        = [("yarn", ["deploy:aragon-env"])] ∧
      (Deploy.Start false Deploy.sysEnvFails Deploy.fresh).outcome
        = .returned (some "exit status 1")) ∧
    launched (Deploy.Start true Deploy.sysAllOk Deploy.fresh).trace = Deploy.stageCommands ∧
    (Deploy.Start true Deploy.sysAllOk Deploy.fresh).outcome = .returned none :=
  ⟨(Deploy.start_runs_stages_in_order false Deploy.sysEnvFails Deploy.fresh).2.1
      "exit status 1" (by decide),
    ((Deploy.start_runs_stages_in_order true Deploy.sysAllOk Deploy.fresh).2.2
      (by decide) (by decide) (by decide) (by decide) (by decide)).1,
    ((Deploy.start_runs_stages_in_order true Deploy.sysAllOk Deploy.fresh).2.2
      (by decide) (by decide) (by decide) (by decide) (by decide)).2.2⟩

/-- The last three stages panic on failure: when ApmAndTemplates, DeployApps or
DeployDAO is the first stage whose command fails, `Start` panics with that
error and launches nothing after the failed stage. -/
theorem Deploy.start_stops_at_panicking_stage (verbose : Bool) (sys : String → RunResult)
    (node : Deploy) (e : String) (h1 : (sys "deploy:aragon-env").err = none)
    (h2 : (sys "deploy:aragon-std-apps").err = none) :
    ((sys "deploy:apm-and-template").err = some e →
      (Deploy.Start verbose sys node).outcome = .panicked e ∧
      launched (Deploy.Start verbose sys node).trace = Deploy.stageCommands.take 3) ∧
    ((sys "deploy:apm-and-template").err = none → (sys "deploy:apps").err = some e →
      (Deploy.Start verbose sys node).outcome = .panicked e ∧
      launched (Deploy.Start verbose sys node).trace = Deploy.stageCommands.take 4) ∧
    ((sys "deploy:apm-and-template").err = none → (sys "deploy:apps").err = none →
      (sys "deploy:dao").err = some e →
      (Deploy.Start verbose sys node).outcome = .panicked e ∧
      launched (Deploy.Start verbose sys node).trace = Deploy.stageCommands) := by
  refine ⟨?_, ?_, ?_⟩
  · intro h3
    cases verbose <;>
      simp [Deploy.Start, Run.andThen, Deploy.AragonEnv, Deploy.AragonStdApps,
        Deploy.ApmAndTemplates, Deploy.runYarn, Deploy.echoAndSucceed, h1, h2, h3, launched,
        Deploy.stageCommands]
  · intro h3 h4
    cases verbose <;>
      simp [Deploy.Start, Run.andThen, Deploy.AragonEnv, Deploy.AragonStdApps,
        Deploy.ApmAndTemplates, Deploy.DeployApps, Deploy.runYarn, Deploy.echoAndSucceed,
        h1, h2, h3, h4, launched, Deploy.stageCommands]
  · intro h3 h4 h5
    cases verbose <;>
      simp [Deploy.Start, Run.andThen, Deploy.AragonEnv, Deploy.AragonStdApps,
        Deploy.ApmAndTemplates, Deploy.DeployApps, Deploy.DeployDAO, Deploy.runYarn,
        Deploy.echoAndSucceed, h1, h2, h3, h4, h5, launched, Deploy.stageCommands]

/-- C2 fails on the code: when the second stage command exits non-zero,
`AragonStdApps` returns the error to `Start` instead of ending the process,
`Start` drops it, launches the three later stages and returns nil. -/
theorem Deploy.start_continues_after_std_apps_failure :
    (Deploy.AragonStdApps false (Deploy.sysStdAppsFails "deploy:aragon-std-apps")
        Deploy.fresh).outcome = .returned (some "exit status 1") ∧
    launched (Deploy.Start false Deploy.sysStdAppsFails Deploy.fresh).trace
      = Deploy.stageCommands ∧
    (Deploy.Start false Deploy.sysStdAppsFails Deploy.fresh).outcome = .returned none := by
  decide

/-- The first stage prints the handle's error buffer on failure: on every
failing run of `AragonEnv` the text printed is the whole of `Errb`. -/
theorem Deploy.aragonEnv_failure_prints_stderr (verbose : Bool) (r : RunResult) (node : Deploy)
    (e : String) (h : r.err = some e) :
    printed (Deploy.AragonEnv verbose r node).trace = (Deploy.AragonEnv verbose r node).node.Errb ∧
    (Deploy.AragonEnv verbose r node).node.Errb = node.Errb ++ r.stderr := by
  cases hu : Contains (node.Errb ++ r.stderr) "Error: Cannot create instance of ENS" <;>
    simp [Deploy.AragonEnv, Deploy.runYarn, h, hu, printed]

/-- C6 fails on the code for the four later stages: with a command that wrote
to standard error and exited with status 1, `AragonStdApps` returns without
printing anything and `ApmAndTemplates`, `DeployApps` and `DeployDAO` panic
after logging only the exit error; the captured text stays in `Errb` unseen. -/
theorem Deploy.later_stages_do_not_print_stderr :
    ∀ verbose : Bool,
      (Deploy.AragonStdApps verbose Deploy.failedRun Deploy.fresh).trace
        = [.spinnerStart "Deploy: Aragon standart apps...",
           .exec "yarn" ["deploy:aragon-std-apps"]] ∧
      (Deploy.AragonStdApps verbose Deploy.failedRun Deploy.fresh).outcome
        = .returned (some "exit status 1") ∧
      (Deploy.AragonStdApps verbose Deploy.failedRun Deploy.fresh).node.Errb
        = "Error: out of gas" ∧
      (Deploy.ApmAndTemplates verbose Deploy.failedRun Deploy.fresh).trace
        = [.spinnerStart "Deploy: apm and template...",
           .exec "yarn" ["deploy:apm-and-template"], .log "exit status 1"] ∧
      (Deploy.ApmAndTemplates verbose Deploy.failedRun Deploy.fresh).outcome
        = .panicked "exit status 1" ∧
      (Deploy.ApmAndTemplates verbose Deploy.failedRun Deploy.fresh).node.Errb
        = "Error: out of gas" ∧
      printed (Deploy.AragonStdApps verbose Deploy.failedRun Deploy.fresh).trace = "" ∧
      printed (Deploy.ApmAndTemplates verbose Deploy.failedRun Deploy.fresh).trace = "" ∧
      printed (Deploy.DeployApps verbose Deploy.failedRun Deploy.fresh).trace = "" ∧
      printed (Deploy.DeployDAO verbose Deploy.failedRun Deploy.fresh).trace = "" := by
  decide

/-- C8: in `AragonEnv`, whenever the command fails and the handle's error text
contains "Error: Cannot create instance of ENS", the spinner text is rewritten
to the remove-the-file-and-retry message before the spinner is marked failed,
and the stage returns the command's error to its caller (no panic). -/
theorem Deploy.aragonEnv_rewrites_ens_error (verbose : Bool) (r : RunResult) (node : Deploy)
    (e : String) (hfail : r.err = some e)
    (hens : Contains (node.Errb ++ r.stderr) "Error: Cannot create instance of ENS" = true) :
    (Deploy.AragonEnv verbose r node).node.Errb = node.Errb ++ r.stderr ∧
    (Deploy.AragonEnv verbose r node).trace =
      [.spinnerStart "Deploy: Aragon env...", .exec "yarn" ["deploy:aragon-env"],
       .spinnerUpdateText
         "Error: Cannot create instance of ENS, remove deployed-localhost.json file and try again",
       .print (node.Errb ++ r.stderr), .spinnerFail] ∧
    (Deploy.AragonEnv verbose r node).outcome = .returned (some e) := by
  simp [Deploy.AragonEnv, Deploy.runYarn, hfail, hens]

/-- Witness for C8 on a fresh handle and a command that fails on a stale ENS
record. -/
theorem Deploy.aragonEnv_rewrites_ens_error_witness :
    (Deploy.AragonEnv false Deploy.ensRun Deploy.fresh).trace =
      [.spinnerStart "Deploy: Aragon env...", .exec "yarn" ["deploy:aragon-env"],
       .spinnerUpdateText
         "Error: Cannot create instance of ENS, remove deployed-localhost.json file and try again",
       .print ("" ++ "Error: Cannot create instance of ENS; no code at address"), .spinnerFail] ∧
    (Deploy.AragonEnv false Deploy.ensRun Deploy.fresh).outcome
      = .returned (some "exit status 1") :=
  (Deploy.aragonEnv_rewrites_ens_error false Deploy.ensRun Deploy.fresh "exit status 1"
    (by decide) (by decide)).2

/-- On a handle whose output buffer is empty, every stage whose command exits
zero reports success, prints in verbose mode exactly what the command wrote to
standard output, and leaves the output buffer empty. -/
theorem Deploy.stage_success_echo_of_empty_buffer (r : RunResult) (node : Deploy)
    (hok : r.err = none) (hempty : node.Outb = "") :
    (printed (Deploy.AragonEnv true r node).trace = r.stdout ∧
      (Deploy.AragonEnv true r node).node.Outb = "" ∧
      (Deploy.AragonEnv true r node).outcome = .returned none) ∧
    (printed (Deploy.AragonStdApps true r node).trace = r.stdout ∧
      (Deploy.AragonStdApps true r node).node.Outb = "" ∧
      (Deploy.AragonStdApps true r node).outcome = .returned none) ∧
    (printed (Deploy.ApmAndTemplates true r node).trace = r.stdout ∧
      (Deploy.ApmAndTemplates true r node).node.Outb = "" ∧
      (Deploy.ApmAndTemplates true r node).outcome = .returned ()) ∧
    (printed (Deploy.DeployApps true r node).trace = r.stdout ∧
      (Deploy.DeployApps true r node).node.Outb = "" ∧
      (Deploy.DeployApps true r node).outcome = .returned ()) ∧
    (printed (Deploy.DeployDAO true r node).trace = r.stdout ∧
      (Deploy.DeployDAO true r node).node.Outb = "" ∧
      (Deploy.DeployDAO true r node).outcome = .returned ()) := by
  simp [Deploy.AragonEnv, Deploy.AragonStdApps, Deploy.ApmAndTemplates, Deploy.DeployApps,
    Deploy.DeployDAO, Deploy.runYarn, Deploy.echoAndSucceed, hok, hempty, printed]

/-- C9 fails on the code: the stages append to the output buffer and only the
verbose success path resets it.  On a handle whose buffer still holds `old`, a
verbose stage whose command wrote `new` and exited zero prints `oldnew`, for
each of the five stages; and within one verbose `Start` on a fresh handle the
third stage prints what the failed second stage had written before its own
output. -/
theorem Deploy.stage_echo_includes_leftover :
    printed (Deploy.AragonEnv true Deploy.okRun Deploy.stale).trace = "oldnew" ∧
    printed (Deploy.AragonStdApps true Deploy.okRun Deploy.stale).trace = "oldnew" ∧
    printed (Deploy.ApmAndTemplates true Deploy.okRun Deploy.stale).trace = "oldnew" ∧
    printed (Deploy.DeployApps true Deploy.okRun Deploy.stale).trace = "oldnew" ∧
    printed (Deploy.DeployDAO true Deploy.okRun Deploy.stale).trace = "oldnew" ∧
    (Deploy.AragonEnv false Deploy.okRun Deploy.fresh).node.Outb = "new" ∧
    printed (Deploy.ApmAndTemplates true (Deploy.sysStdAppsFails "deploy:apm-and-template")
      (Deploy.AragonStdApps true (Deploy.sysStdAppsFails "deploy:aragon-std-apps")
        Deploy.fresh).node).trace = "compilingdeploy:apm-and-template" := by
  decide

/-! ## Daemon launcher -/

theorem samples_append (a b : List Event) : samples (a ++ b) = samples a + samples b := by
  induction a with
  | nil => simp [samples]
  | cons e t ih =>
    cases e <;> simp [samples, ih]
    omega

theorem sleeps_append (a b : List Event) : sleeps (a ++ b) = sleeps a + sleeps b := by
  induction a with
  | nil => simp [sleeps]
  | cons e t ih =>
    cases e <;> simp [sleeps, ih]
    omega

/-- One iteration that finds the readiness marker. -/
theorem IPFS.loop_ready (verbose : Bool) (daemon : Nat → String × String) (timeout : Int)
    (i : Nat) (node : IPFS)
    (h : Contains (node.Outb ++ (daemon i).1) "Daemon is ready" = true) :
    IPFS.loop verbose daemon timeout i node =
      ⟨⟨node.Cmd, node.Outb ++ (daemon i).1, node.Errb ++ (daemon i).2⟩,
        .sample i :: IPFS.echo verbose (node.Outb ++ (daemon i).1) ++
          [.spinnerSuccess "IPFS: Started", .print "\n"],
        .returned ()⟩ := by
  rw [IPFS.loop]
  simp [h]

/-- One iteration that finds the error marker and no readiness marker. -/
theorem IPFS.loop_error (verbose : Bool) (daemon : Nat → String × String) (timeout : Int)
    (i : Nat) (node : IPFS)
    (h : Contains (node.Outb ++ (daemon i).1) "Daemon is ready" = false)
    (he : Contains (node.Errb ++ (daemon i).2) "Error:" = true) :
    IPFS.loop verbose daemon timeout i node =
      ⟨⟨node.Cmd, node.Outb ++ (daemon i).1, node.Errb ++ (daemon i).2⟩,
        .sample i :: IPFS.echo verbose (node.Outb ++ (daemon i).1) ++
          [.spinnerFail, .print (node.Errb ++ (daemon i).2 ++ "\n"), .print "\n"],
        .returned ()⟩ := by
  rw [IPFS.loop]
  simp [h, he]

/-- One iteration that finds no marker with the counter still positive. -/
theorem IPFS.loop_next (verbose : Bool) (daemon : Nat → String × String) (timeout : Int)
    (i : Nat) (node : IPFS)
    (h : Contains (node.Outb ++ (daemon i).1) "Daemon is ready" = false)
    (he : Contains (node.Errb ++ (daemon i).2) "Error:" = false) (ht : 0 ≤ timeout - 1) :
    IPFS.loop verbose daemon timeout i node =
      ⟨(IPFS.loop verbose daemon (timeout - 1) (i + 1) ⟨node.Cmd, "", ""⟩).node,
        .sample i :: IPFS.echo verbose (node.Outb ++ (daemon i).1) ++ [.sleep 1] ++
          (IPFS.loop verbose daemon (timeout - 1) (i + 1) ⟨node.Cmd, "", ""⟩).trace,
        (IPFS.loop verbose daemon (timeout - 1) (i + 1) ⟨node.Cmd, "", ""⟩).outcome⟩ := by
  rw [IPFS.loop]
  have : ¬ (timeout - 1 < 0) := by omega
  simp [h, he, this]

/-- One iteration that finds no marker and exhausts the counter. -/
theorem IPFS.loop_timeout (verbose : Bool) (daemon : Nat → String × String) (timeout : Int)
    (i : Nat) (node : IPFS)
    (h : Contains (node.Outb ++ (daemon i).1) "Daemon is ready" = false)
    (he : Contains (node.Errb ++ (daemon i).2) "Error:" = false) (ht : timeout - 1 < 0) :
    IPFS.loop verbose daemon timeout i node =
      ⟨⟨node.Cmd, "", ""⟩,
        .sample i :: IPFS.echo verbose (node.Outb ++ (daemon i).1) ++
          [.sleep 1, .spinnerUpdateText "Timeout error", .spinnerFail],
        .panicked "Timeout error"⟩ := by
  rw [IPFS.loop]
  simp [h, he, ht]

theorem IPFS.echo_polling (verbose : Bool) (out : String) :
    ∀ e ∈ IPFS.echo verbose out, e.isPolling = true := by
  intro e he
  unfold IPFS.echo at he
  split at he
  · simp at he
    subst he
    rfl
  · simp at he

theorem IPFS.samples_echo (verbose : Bool) (out : String) :
    samples (IPFS.echo verbose out) = 0 := by
  unfold IPFS.echo
  split <;> simp [samples]

theorem IPFS.sleeps_echo (verbose : Bool) (out : String) :
    sleeps (IPFS.echo verbose out) = 0 := by
  unfold IPFS.echo
  split <;> simp [sleeps]

/-- After an iteration that found no marker, the buffers were reset, so the
following samples show only what the daemon wrote in between. -/
theorem IPFS.seenFrom_step (node : IPFS) (daemon : Nat → String × String)
    (cmd : Option LidoCli.Cmd) (i j : Nat) (h : i + 1 ≤ j) :
    IPFS.seenFrom ⟨cmd, "", ""⟩ daemon (i + 1) j = IPFS.seenFrom node daemon i j := by
  unfold IPFS.seenFrom
  have h1 : ¬ j ≤ i := by omega
  by_cases h2 : j ≤ i + 1
  · have : j = i + 1 := by omega
    subst this
    simp
  · simp [h1, h2]

/-- The loop stops at the first sample showing a marker, as long as that sample
falls within the counter: it returns, having taken `n + 1` samples and slept
`n` times, with the report of that sample at the end of its trace. -/
theorem IPFS.loop_stops_at_first_marker (verbose : Bool) (daemon : Nat → String × String) :
    ∀ (n t i : Nat) (node : IPFS), n ≤ t →
      (∀ j, i ≤ j → j < i + n →
        Contains (IPFS.seenFrom node daemon i j).1 "Daemon is ready" = false ∧
        Contains (IPFS.seenFrom node daemon i j).2 "Error:" = false) →
      (Contains (IPFS.seenFrom node daemon i (i + n)).1 "Daemon is ready" = true ∨
        Contains (IPFS.seenFrom node daemon i (i + n)).2 "Error:" = true) →
      ∃ pre, (∀ e ∈ pre, e.isPolling = true) ∧ samples pre = n + 1 ∧ sleeps pre = n ∧
        IPFS.loop verbose daemon t i node =
          ⟨⟨node.Cmd, (IPFS.seenFrom node daemon i (i + n)).1,
              (IPFS.seenFrom node daemon i (i + n)).2⟩,
            pre ++ (if Contains (IPFS.seenFrom node daemon i (i + n)).1 "Daemon is ready" then
              [.spinnerSuccess "IPFS: Started", .print "\n"]
            else
              [.spinnerFail, .print ((IPFS.seenFrom node daemon i (i + n)).2 ++ "\n"),
                .print "\n"]),
            .returned ()⟩ := by
  intro n
  induction n with
  | zero =>
    intro t i node _ _ hm
    have hs : IPFS.seenFrom node daemon i (i + 0)
        = (node.Outb ++ (daemon i).1, node.Errb ++ (daemon i).2) := by
      simp [IPFS.seenFrom]
    rw [hs] at hm ⊢
    refine ⟨.sample i :: IPFS.echo verbose (node.Outb ++ (daemon i).1), ?_, ?_, ?_, ?_⟩
    · intro e he
      rcases List.mem_cons.mp he with rfl | he
      · rfl
      · exact IPFS.echo_polling _ _ e he
    · simp [samples, IPFS.samples_echo]
    · simp [sleeps, IPFS.sleeps_echo]
    · cases hr : Contains (node.Outb ++ (daemon i).1) "Daemon is ready" with
      | true => simp [IPFS.loop_ready verbose daemon t i node hr]
      | false =>
        have he : Contains (node.Errb ++ (daemon i).2) "Error:" = true := by
          simpa [hr] using hm
        simp [IPFS.loop_error verbose daemon t i node hr he]
  | succ n ih =>
    intro t i node hnt hquiet hm
    have h0 := hquiet i (Nat.le_refl i) (by omega)
    have hs : IPFS.seenFrom node daemon i i
        = (node.Outb ++ (daemon i).1, node.Errb ++ (daemon i).2) := by
      simp [IPFS.seenFrom]
    rw [hs] at h0
    obtain ⟨t, rfl⟩ : ∃ u, t = u + 1 := ⟨t - 1, by omega⟩
    have hcast : ((t + 1 : Nat) : Int) - 1 = (t : Int) := by push_cast; ring
    have hstep := IPFS.loop_next verbose daemon ((t + 1 : Nat) : Int) i node h0.1 h0.2
      (by rw [hcast]; exact Int.natCast_nonneg t)
    rw [hcast] at hstep
    have hidx : i + (n + 1) = i + 1 + n := by omega
    have hsf : IPFS.seenFrom (⟨node.Cmd, "", ""⟩ : IPFS) daemon (i + 1) (i + 1 + n)
        = IPFS.seenFrom node daemon i (i + (n + 1)) := by
      rw [hidx]
      exact IPFS.seenFrom_step node daemon node.Cmd i (i + 1 + n) (by omega)
    obtain ⟨pre, hpol, hsam, hsl, hloop⟩ := ih t (i + 1) ⟨node.Cmd, "", ""⟩ (by omega)
      (by
        intro j hj1 hj2
        rw [IPFS.seenFrom_step node daemon node.Cmd i j hj1]
        exact hquiet j (by omega) (by omega))
      (by rw [hsf]; exact hm)
    rw [hsf] at hloop
    refine ⟨.sample i :: IPFS.echo verbose (node.Outb ++ (daemon i).1) ++ [.sleep 1] ++ pre,
      ?_, ?_, ?_, ?_⟩
    · intro e he
      rcases List.mem_append.mp he with he | he
      · rcases List.mem_append.mp he with he | he
        · rcases List.mem_cons.mp he with rfl | he
          · rfl
          · exact IPFS.echo_polling _ _ e he
        · rw [List.mem_singleton.mp he]
          rfl
      · exact hpol e he
    · simp [samples, samples_append, IPFS.samples_echo, hsam]
    · simp [sleeps, sleeps_append, IPFS.sleeps_echo, hsl]
    · rw [hstep, hloop]
      simp

/-- The loop panics with the timeout error when the `t + 1` samples its counter
allows all show no marker; it has then taken `t + 1` samples and slept `t + 1`
times. -/
theorem IPFS.loop_times_out (verbose : Bool) (daemon : Nat → String × String) :
    ∀ (t i : Nat) (node : IPFS),
      (∀ j, i ≤ j → j ≤ i + t →
        Contains (IPFS.seenFrom node daemon i j).1 "Daemon is ready" = false ∧
        Contains (IPFS.seenFrom node daemon i j).2 "Error:" = false) →
      ∃ pre, (∀ e ∈ pre, e.isPolling = true) ∧ samples pre = t + 1 ∧ sleeps pre = t + 1 ∧
        IPFS.loop verbose daemon t i node =
          ⟨⟨node.Cmd, "", ""⟩, pre ++ [.spinnerUpdateText "Timeout error", .spinnerFail],
            .panicked "Timeout error"⟩ := by
  intro t
  induction t with
  | zero =>
    intro i node hquiet
    have h0 := hquiet i (Nat.le_refl i) (by omega)
    have hs : IPFS.seenFrom node daemon i i
        = (node.Outb ++ (daemon i).1, node.Errb ++ (daemon i).2) := by
      simp [IPFS.seenFrom]
    rw [hs] at h0
    refine ⟨.sample i :: IPFS.echo verbose (node.Outb ++ (daemon i).1) ++ [.sleep 1],
      ?_, ?_, ?_, ?_⟩
    · intro e he
      rcases List.mem_append.mp he with he | he
      · rcases List.mem_cons.mp he with rfl | he
        · rfl
        · exact IPFS.echo_polling _ _ e he
      · rw [List.mem_singleton.mp he]
        rfl
    · simp [samples, samples_append, IPFS.samples_echo]
    · simp [sleeps, sleeps_append, IPFS.sleeps_echo]
    · rw [IPFS.loop_timeout verbose daemon ((0 : Nat) : Int) i node h0.1 h0.2 (by decide)]
      simp
  | succ t ih =>
    intro i node hquiet
    have h0 := hquiet i (Nat.le_refl i) (by omega)
    have hs : IPFS.seenFrom node daemon i i
        = (node.Outb ++ (daemon i).1, node.Errb ++ (daemon i).2) := by
      simp [IPFS.seenFrom]
    rw [hs] at h0
    have hcast : ((t + 1 : Nat) : Int) - 1 = (t : Int) := by push_cast; ring
    have hstep := IPFS.loop_next verbose daemon ((t + 1 : Nat) : Int) i node h0.1 h0.2
      (by rw [hcast]; exact Int.natCast_nonneg t)
    rw [hcast] at hstep
    obtain ⟨pre, hpol, hsam, hsl, hloop⟩ := ih (i + 1) ⟨node.Cmd, "", ""⟩
      (by
        intro j hj1 hj2
        rw [IPFS.seenFrom_step node daemon node.Cmd i j hj1]
        exact hquiet j (by omega) (by omega))
    refine ⟨.sample i :: IPFS.echo verbose (node.Outb ++ (daemon i).1) ++ [.sleep 1] ++ pre,
      ?_, ?_, ?_, ?_⟩
    · intro e he
      rcases List.mem_append.mp he with he | he
      · rcases List.mem_append.mp he with he | he
        · rcases List.mem_cons.mp he with rfl | he
          · rfl
          · exact IPFS.echo_polling _ _ e he
        · rw [List.mem_singleton.mp he]
          rfl
      · exact hpol e he
    · simp [samples, samples_append, IPFS.samples_echo, hsam]
    · simp [sleeps, sleeps_append, IPFS.sleeps_echo, hsl]
    · rw [hstep, hloop]
      simp

/-- After a successful launch `Start` is the loop entered with counter 10 at
sample 1 on the handle that records the process. -/
theorem IPFS.start_eq_loop (verbose : Bool) (p : Process) (daemon : Nat → String × String)
    (node : IPFS) :
    IPFS.Start verbose (.ok p) daemon node =
      ⟨(IPFS.loop verbose daemon ((10 : Nat) : Int) 1
          ⟨some ⟨"ipfs", ["daemon"], some p⟩, node.Outb, node.Errb⟩).node,
        [.spinnerStart "IPFS: Starting...", .exec "ipfs" ["daemon"]] ++
          (IPFS.loop verbose daemon ((10 : Nat) : Int) 1
            ⟨some ⟨"ipfs", ["daemon"], some p⟩, node.Outb, node.Errb⟩).trace,
        (IPFS.loop verbose daemon ((10 : Nat) : Int) 1
          ⟨some ⟨"ipfs", ["daemon"], some p⟩, node.Outb, node.Errb⟩).outcome⟩ := by
  rfl

/-- With no marker in any of the samples 1 to 11, `Start` panics with the
timeout error after 11 samples and 11 sleeps. -/
theorem IPFS.start_times_out (verbose : Bool) (p : Process) (daemon : Nat → String × String)
    (node : IPFS)
    (hquiet : ∀ k, 1 ≤ k → k ≤ 11 →
      Contains (IPFS.seen node daemon k).1 "Daemon is ready" = false ∧
      Contains (IPFS.seen node daemon k).2 "Error:" = false) :
    ∃ pre, (∀ e ∈ pre, e.isPolling = true) ∧ samples pre = 11 ∧ sleeps pre = 11 ∧
      IPFS.Start verbose (.ok p) daemon node =
        ⟨⟨some ⟨"ipfs", ["daemon"], some p⟩, "", ""⟩,
          [.spinnerStart "IPFS: Starting...", .exec "ipfs" ["daemon"]] ++ pre ++
            [.spinnerUpdateText "Timeout error", .spinnerFail],
          .panicked "Timeout error"⟩ := by
  obtain ⟨pre, hpol, hsam, hsl, hloop⟩ := IPFS.loop_times_out verbose daemon 10 1
    ⟨some ⟨"ipfs", ["daemon"], some p⟩, node.Outb, node.Errb⟩
    (fun j h1 h2 => hquiet j h1 (by omega))
  refine ⟨pre, hpol, hsam, hsl, ?_⟩
  rw [IPFS.start_eq_loop, hloop]
  simp

/-- When some sample `k` among the first 11 shows a marker, `Start` returns at
the first such sample `m`, with that sample's report closing the trace. -/
theorem IPFS.start_stops_at_first_marker (verbose : Bool) (p : Process)
    (daemon : Nat → String × String) (node : IPFS) (k : Nat) (h1 : 1 ≤ k) (h11 : k ≤ 11)
    (hm : Contains (IPFS.seen node daemon k).1 "Daemon is ready" = true ∨
      Contains (IPFS.seen node daemon k).2 "Error:" = true) :
    ∃ m pre, 1 ≤ m ∧ m ≤ k ∧
      (Contains (IPFS.seen node daemon m).1 "Daemon is ready" = true ∨
        Contains (IPFS.seen node daemon m).2 "Error:" = true) ∧
      (∀ j, 1 ≤ j → j < m →
        Contains (IPFS.seen node daemon j).1 "Daemon is ready" = false ∧
        Contains (IPFS.seen node daemon j).2 "Error:" = false) ∧
      (∀ e ∈ pre, e.isPolling = true) ∧ samples pre = m ∧ sleeps pre + 1 = m ∧
      IPFS.Start verbose (.ok p) daemon node =
        ⟨⟨some ⟨"ipfs", ["daemon"], some p⟩, (IPFS.seen node daemon m).1,
            (IPFS.seen node daemon m).2⟩,
          [.spinnerStart "IPFS: Starting...", .exec "ipfs" ["daemon"]] ++ pre ++
            (if Contains (IPFS.seen node daemon m).1 "Daemon is ready" then
              [.spinnerSuccess "IPFS: Started", .print "\n"]
            else
              [.spinnerFail, .print ((IPFS.seen node daemon m).2 ++ "\n"), .print "\n"]),
          .returned ()⟩ := by
  have hex : ∃ j, 1 ≤ j ∧ (Contains (IPFS.seen node daemon j).1 "Daemon is ready" = true ∨
      Contains (IPFS.seen node daemon j).2 "Error:" = true) := ⟨k, h1, hm⟩
  have hmin := fun j => @Nat.find_min _ _ hex j
  have hspec := Nat.find_spec hex
  have hle : Nat.find hex ≤ k := Nat.find_min' hex ⟨h1, hm⟩
  generalize Nat.find hex = m at hmin hspec hle
  have hquiet : ∀ j, 1 ≤ j → j < m →
      Contains (IPFS.seen node daemon j).1 "Daemon is ready" = false ∧
      Contains (IPFS.seen node daemon j).2 "Error:" = false := by
    intro j hj1 hj2
    have := hmin j hj2
    simp only [not_and, not_or] at this
    have h := this hj1
    exact ⟨by simpa using h.1, by simpa using h.2⟩
  obtain ⟨n, rfl⟩ : ∃ n, m = 1 + n := ⟨m - 1, by omega⟩
  obtain ⟨pre, hpol, hsam, hsl, hloop⟩ := IPFS.loop_stops_at_first_marker verbose daemon n 10 1
    ⟨some ⟨"ipfs", ["daemon"], some p⟩, node.Outb, node.Errb⟩ (by omega)
    (fun j hj1 hj2 => hquiet j hj1 hj2) hspec.2
  refine ⟨1 + n, pre, hspec.1, hle, hspec.2, hquiet, hpol, by omega, by omega, ?_⟩
  rw [IPFS.start_eq_loop, hloop]
  simp [IPFS.seen, IPFS.seenFrom]

theorem not_mem_of_polling (pre : List Event) (hpol : ∀ e ∈ pre, e.isPolling = true)
    (e : Event) (he : e.isPolling = false) : e ∉ pre := by
  intro hmem
  have := hpol e hmem
  rw [he] at this
  exact Bool.noConfusion this

/-- C3 fails on the code: the counter starts at 10 and the loop only panics once
it has dropped below zero, so a daemon that never emits a marker is sampled 11
times, with 11 one-second sleeps, before the "Timeout error" panic. -/
theorem IPFS.start_silent_daemon_takes_eleven_samples :
    samples (IPFS.Start false (.ok ⟨4242⟩) IPFS.silent IPFS.idle).trace = 11 ∧
    sleeps (IPFS.Start false (.ok ⟨4242⟩) IPFS.silent IPFS.idle).trace = 11 ∧
    (IPFS.Start false (.ok ⟨4242⟩) IPFS.silent IPFS.idle).outcome
      = .panicked "Timeout error" := by
  obtain ⟨pre, _, hsam, hsl, hstart⟩ := IPFS.start_times_out false ⟨4242⟩ IPFS.silent IPFS.idle
    (by
      intro k _ _
      unfold IPFS.seen IPFS.seenFrom
      split <;> exact ⟨rfl, rfl⟩)
  rw [hstart]
  simp [samples, sleeps, samples_append, sleeps_append, hsam, hsl]

/-- C4: when the output buffer seen at some sample `k ≤ 10` contains "Daemon is
ready" and no earlier sample's error buffer contains "Error:", `Start` reports
"IPFS: Started" and returns normally, never taking the timeout path.  It
returns at the first sample `m ≤ k` showing the readiness marker, which is `k`
itself when no earlier sample shows it; before that report the trace holds only
the `m` samples, their echoes and sleeps. -/
theorem IPFS.start_reports_ready (verbose : Bool) (p : Process)
    (daemon : Nat → String × String) (node : IPFS) (k : Nat) (h1 : 1 ≤ k) (h10 : k ≤ 10)
    (hready : Contains (IPFS.seen node daemon k).1 "Daemon is ready" = true)
    (hnoerr : ∀ j, 1 ≤ j → j < k → Contains (IPFS.seen node daemon j).2 "Error:" = false) :
    (IPFS.Start verbose (.ok p) daemon node).outcome = .returned () ∧
    Event.spinnerUpdateText "Timeout error" ∉ (IPFS.Start verbose (.ok p) daemon node).trace ∧
    Event.spinnerFail ∉ (IPFS.Start verbose (.ok p) daemon node).trace ∧
    ∃ m pre, 1 ≤ m ∧ m ≤ k ∧
      Contains (IPFS.seen node daemon m).1 "Daemon is ready" = true ∧
      ((∀ j, 1 ≤ j → j < k →
        Contains (IPFS.seen node daemon j).1 "Daemon is ready" = false) → m = k) ∧
      (∀ e ∈ pre, e.isPolling = true) ∧ samples pre = m ∧
      IPFS.Start verbose (.ok p) daemon node =
        ⟨⟨some ⟨"ipfs", ["daemon"], some p⟩, (IPFS.seen node daemon m).1,
            (IPFS.seen node daemon m).2⟩,
          [.spinnerStart "IPFS: Starting...", .exec "ipfs" ["daemon"]] ++ pre ++
            [.spinnerSuccess "IPFS: Started", .print "\n"],
          .returned ()⟩ := by
  obtain ⟨m, pre, hm1, hmk, hmark, _, hpol, hsam, _, hstart⟩ :=
    IPFS.start_stops_at_first_marker verbose p daemon node k h1 (by omega) (Or.inl hready)
  have hr : Contains (IPFS.seen node daemon m).1 "Daemon is ready" = true := by
    rcases Nat.lt_or_ge m k with hlt | hge
    · rcases hmark with h | h
      · exact h
      · rw [hnoerr m hm1 hlt] at h
        exact Bool.noConfusion h
    · have : m = k := by omega
      rw [this]
      exact hready
  rw [if_pos hr] at hstart
  have hfirst : (∀ j, 1 ≤ j → j < k →
      Contains (IPFS.seen node daemon j).1 "Daemon is ready" = false) → m = k := by
    intro hno
    rcases Nat.lt_or_ge m k with hlt | hge
    · rw [hno m hm1 hlt] at hr
      exact Bool.noConfusion hr
    · omega
  have hupd := not_mem_of_polling pre hpol (.spinnerUpdateText "Timeout error") rfl
  have hfail := not_mem_of_polling pre hpol .spinnerFail rfl
  refine ⟨?_, ?_, ?_, m, pre, hm1, hmk, hr, hfirst, hpol, hsam, hstart⟩
  · rw [hstart]
  · rw [hstart]
    simp [hupd]
  · rw [hstart]
    simp [hfail]

/-- Witness for C4: a daemon that announces readiness before the third sample. -/
theorem IPFS.start_reports_ready_witness :
    Contains (IPFS.seen IPFS.idle IPFS.readyAtThree 3).1 "Daemon is ready" = true ∧
    (IPFS.Start true (.ok ⟨4242⟩) IPFS.readyAtThree IPFS.idle).outcome = .returned () ∧
    Event.spinnerFail ∉ (IPFS.Start true (.ok ⟨4242⟩) IPFS.readyAtThree IPFS.idle).trace :=
  have h := IPFS.start_reports_ready true ⟨4242⟩ IPFS.readyAtThree IPFS.idle 3
    (by decide) (by decide) (by decide)
    (by
      intro j hj1 hj2
      interval_cases j <;> decide)
  ⟨by decide, h.1, h.2.2.1⟩

/-- C5: when the error buffer contains "Error:" at some sample `k` within the
polling budget (any of the 11 samples the loop can take) and no sample up to
`k` shows "Daemon is ready", `Start` marks the spinner failed, prints the error
buffer and returns normally with the handle still populated: `Cmd` holds the
started process and no kill is issued.  The report is made at the first sample
`m ≤ k` whose error buffer holds the marker. -/
theorem IPFS.start_reports_error_keeps_handle (verbose : Bool) (p : Process)
    (daemon : Nat → String × String) (node : IPFS) (k : Nat) (h1 : 1 ≤ k) (h11 : k ≤ 11)
    (herr : Contains (IPFS.seen node daemon k).2 "Error:" = true)
    (hnoready : ∀ j, 1 ≤ j → j ≤ k →
      Contains (IPFS.seen node daemon j).1 "Daemon is ready" = false) :
    (IPFS.Start verbose (.ok p) daemon node).outcome = .returned () ∧
    (IPFS.Start verbose (.ok p) daemon node).node.Cmd = some ⟨"ipfs", ["daemon"], some p⟩ ∧
    (∀ pid, Event.kill pid ∉ (IPFS.Start verbose (.ok p) daemon node).trace) ∧
    (∀ text, Event.spinnerSuccess text ∉ (IPFS.Start verbose (.ok p) daemon node).trace) ∧
    ∃ m pre, 1 ≤ m ∧ m ≤ k ∧
      Contains (IPFS.seen node daemon m).2 "Error:" = true ∧
      ((∀ j, 1 ≤ j → j < k → Contains (IPFS.seen node daemon j).2 "Error:" = false) → m = k) ∧
      (∀ e ∈ pre, e.isPolling = true) ∧ samples pre = m ∧
      IPFS.Start verbose (.ok p) daemon node =
        ⟨⟨some ⟨"ipfs", ["daemon"], some p⟩, (IPFS.seen node daemon m).1,
            (IPFS.seen node daemon m).2⟩,
          [.spinnerStart "IPFS: Starting...", .exec "ipfs" ["daemon"]] ++ pre ++
            [.spinnerFail, .print ((IPFS.seen node daemon m).2 ++ "\n"), .print "\n"],
          .returned ()⟩ := by
  obtain ⟨m, pre, hm1, hmk, hmark, _, hpol, hsam, _, hstart⟩ :=
    IPFS.start_stops_at_first_marker verbose p daemon node k h1 h11 (Or.inr herr)
  have hnr : Contains (IPFS.seen node daemon m).1 "Daemon is ready" = false :=
    hnoready m hm1 hmk
  have he : Contains (IPFS.seen node daemon m).2 "Error:" = true := by
    rcases hmark with h | h
    · rw [hnr] at h
      exact Bool.noConfusion h
    · exact h
  have hif : ¬ (Contains (IPFS.seen node daemon m).1 "Daemon is ready" = true) := by
    rw [hnr]
    exact Bool.noConfusion
  rw [if_neg hif] at hstart
  have hfirst : (∀ j, 1 ≤ j → j < k →
      Contains (IPFS.seen node daemon j).2 "Error:" = false) → m = k := by
    intro hno
    rcases Nat.lt_or_ge m k with hlt | hge
    · rw [hno m hm1 hlt] at he
      exact Bool.noConfusion he
    · omega
  refine ⟨?_, ?_, ?_, ?_, m, pre, hm1, hmk, he, hfirst, hpol, hsam, hstart⟩
  · rw [hstart]
  · rw [hstart]
  · intro pid
    have := not_mem_of_polling pre hpol (.kill pid) rfl
    rw [hstart]
    simp [this]
  · intro text
    have := not_mem_of_polling pre hpol (.spinnerSuccess text) rfl
    rw [hstart]
    simp [this]

/-- Witness for C5: a daemon that reports a lock error before the second
sample. -/
theorem IPFS.start_reports_error_keeps_handle_witness :
    Contains (IPFS.seen IPFS.idle IPFS.errorAtTwo 2).2 "Error:" = true ∧
    (IPFS.Start false (.ok ⟨4242⟩) IPFS.errorAtTwo IPFS.idle).outcome = .returned () ∧
    (IPFS.Start false (.ok ⟨4242⟩) IPFS.errorAtTwo IPFS.idle).node.Cmd
      = some ⟨"ipfs", ["daemon"], some ⟨4242⟩⟩ :=
  have h := IPFS.start_reports_error_keeps_handle false ⟨4242⟩ IPFS.errorAtTwo IPFS.idle 2
    (by decide) (by decide) (by decide)
    (by
      intro j hj1 hj2
      interval_cases j <;> decide)
  ⟨by decide, h.1, h.2.1⟩

/-- C10 fails on the code: with a daemon whose error buffer shows "Error:" at
the second sample and no readiness marker, `Start` marks the spinner failed and
then returns normally to its caller, as it does on readiness, instead of ending
the process.  The other failure exits of the same method do panic: the launch
error here, the timeout in `IPFS.start_times_out`. -/
theorem IPFS.start_returns_after_error_marker :
    Contains (IPFS.seen IPFS.idle IPFS.errorAtTwo 2).2 "Error:" = true ∧
    Contains (IPFS.seen IPFS.idle IPFS.errorAtTwo 1).1 "Daemon is ready" = false ∧
    Contains (IPFS.seen IPFS.idle IPFS.errorAtTwo 2).1 "Daemon is ready" = false ∧
    Event.spinnerFail ∈ (IPFS.Start false (.ok ⟨4242⟩) IPFS.errorAtTwo IPFS.idle).trace ∧
    (IPFS.Start false (.ok ⟨4242⟩) IPFS.errorAtTwo IPFS.idle).outcome = .returned () ∧
    (¬ ∃ msg, (IPFS.Start false (.ok ⟨4242⟩) IPFS.errorAtTwo IPFS.idle).outcome
      = .panicked msg) ∧
    (IPFS.Start false (.error "exec: ipfs: not found") IPFS.errorAtTwo IPFS.idle).outcome
      = .panicked "exec: ipfs: not found" := by
  obtain ⟨m, pre, hm1, hm2, _, _, _, _, _, hstart⟩ :=
    IPFS.start_stops_at_first_marker false ⟨4242⟩ IPFS.errorAtTwo IPFS.idle 2
      (by decide) (by decide) (Or.inr (by decide))
  have hif : ¬ (Contains (IPFS.seen IPFS.idle IPFS.errorAtTwo m).1 "Daemon is ready" = true) := by
    interval_cases m <;> decide
  rw [if_neg hif] at hstart
  refine ⟨by decide, by decide, by decide, ?_, ?_, ?_, rfl⟩
  · rw [hstart]
    simp
  · rw [hstart]
  · rw [hstart]
    rintro ⟨msg, h⟩
    exact Outcome.noConfusion h

/-- C7: `Stop` kills the daemon exactly when a process is recorded as running.
If `Cmd` is nil, or `Cmd.Process` is nil, or the recorded pid is 0, `Stop` does
nothing: same launcher state, empty trace, normal return.  Otherwise it starts
the "IPFS: Stopping..." spinner, kills the recorded process, sets `Cmd` to nil
and then reports "IPFS: Stopped". -/
theorem IPFS.stop_kills_exactly_when_running (node : IPFS) :
    ((node.Cmd = none ∨
        (∃ cmd, node.Cmd = some cmd ∧
          (cmd.Process = none ∨ ∃ p, cmd.Process = some p ∧ p.Pid = 0))) →
      IPFS.Stop node = ⟨node, [], .returned ()⟩) ∧
    (∀ cmd p, node.Cmd = some cmd → cmd.Process = some p → p.Pid ≠ 0 →
      IPFS.Stop node =
        ⟨⟨none, node.Outb, node.Errb⟩,
          [.spinnerStart "IPFS: Stopping...", .kill p.Pid, .spinnerSuccess "IPFS: Stopped"],
          .returned ()⟩) ∧
    ((∃ pid, Event.kill pid ∈ (IPFS.Stop node).trace) ↔ IPFS.running node) := by
  refine ⟨?_, ?_, ⟨?_, ?_⟩⟩
  · rintro (h | ⟨cmd, hc, h | ⟨p, hp, h0⟩⟩)
    · simp [IPFS.Stop, h]
    · simp [IPFS.Stop, hc, h]
    · simp [IPFS.Stop, hc, hp, h0]
  · intro cmd p hc hp h0
    simp [IPFS.Stop, hc, hp, h0]
  · rintro ⟨pid, hk⟩
    unfold IPFS.Stop at hk
    cases hc : node.Cmd with
    | none => simp [hc] at hk
    | some cmd =>
      cases hp : cmd.Process with
      | none => simp [hc, hp] at hk
      | some p =>
        by_cases h0 : p.Pid = 0
        · simp [hc, hp, h0] at hk
        · exact ⟨cmd, p, hc, hp, h0⟩
  · rintro ⟨cmd, p, hc, hp, h0⟩
    exact ⟨p.Pid, by simp [IPFS.Stop, hc, hp, h0]⟩

/-- Witness for C7: `Stop` on an idle launcher does nothing, and on a launcher
holding process 4242 it kills that process and clears the handle. -/
theorem IPFS.stop_kills_exactly_when_running_witness :
    IPFS.Stop IPFS.idle = ⟨IPFS.idle, [], .returned ()⟩ ∧
    IPFS.Stop IPFS.started =
      ⟨⟨none, "Daemon is ready", ""⟩,
        [.spinnerStart "IPFS: Stopping...", .kill 4242, .spinnerSuccess "IPFS: Stopped"],
        .returned ()⟩ :=
  ⟨(IPFS.stop_kills_exactly_when_running IPFS.idle).1 (Or.inl rfl),
    (IPFS.stop_kills_exactly_when_running IPFS.started).2.1
      ⟨"ipfs", ["daemon"], some ⟨4242⟩⟩ ⟨4242⟩ rfl rfl (by decide)⟩

end LidoCli
